import Mathlib

/-!
# Verification of the recallai-go request pipeline

A shallow embedding, in Lean 4, of the Go client library `recallai-go`
(files `client.go`, `bot.go`, and the `Error` type), together with proofs
of the specification claims about it.

Modelling conventions:

* Go's `([]byte, error)` / `(*T, error)` multiple returns are embedded as
  pairs of `Option`s, exactly mirroring each `return` statement.
* Machine integers that matter (`Code int`, HTTP status) are `Int`/`Nat`.
* The HTTP transport (`http.Client.Do`) is a parameter
  `Transport := HttpRequest → Except String HttpResponse`; `.error`
  is a transport-level failure, `.ok` a delivered response.
* A response body stream is represented by the outcome of reading it:
  `Except String RawBody` (`.error` = the read fails, `.ok` = the raw
  bytes, already classified as well-formed JSON or malformed text).
  Observable resource actions (calling the transport, reading a body,
  closing a body) are recorded in an effect trace returned alongside
  each result, so that resource claims (transport never invoked, body
  never closed) are statable.
* `net/url.Parse` of the relative reference is approximated by its
  dominant failure mode: it rejects strings containing ASCII control
  characters and accepts the rest.  `json.Marshal` of the already
  JSON-shaped bodies used here is total.
* Go panics (nil-pointer dereference in `CreateBot`, the
  construction-time `panic` in `NewClient`/`WithRegion`) are embedded
  with the explicit result type `PanicOr`.
-/

/-- A JSON document, as produced by Go's `encoding/json`.  Numbers are
restricted to integers (the only numbers appearing in the modelled
payloads). -/
inductive Json where
  | null : Json
  | bool (b : Bool) : Json
  | num (n : Int) : Json
  | str (s : String) : Json
  | arr (elems : List Json) : Json
  | obj (fields : List (String × Json)) : Json

/-- The raw bytes of a response body, pre-classified by whether they are
syntactically valid JSON (`wellFormed`, carrying the parsed document) or
not (`malformed`, carrying the parse-failure message that
`json.Unmarshal` would report). -/
inductive RawBody where
  | wellFormed (j : Json) : RawBody
  | malformed (msg : String) : RawBody

/-- A Go `error` value as this library builds them: the structured
`Error{Code, Detail}` of the API, a `fmt.Errorf("context: %w", cause)`
wrap, or a leaf error message. -/
inductive GoErr where
  | apiError (code : Int) (detail : String) : GoErr
  | wrapped (context : String) (cause : GoErr) : GoErr
  | simple (msg : String) : GoErr
deriving DecidableEq

/-- `Error() string` of the embedded error values: `Error.Error` returns
`e.Detail`; `fmt.Errorf("ctx: %w", e)` reports `"ctx: " ++ e.Error()`. -/
def GoErr.message : GoErr → String
  | .apiError _ detail => detail
  | .wrapped context cause => context ++ ": " ++ cause.message
  | .simple msg => msg

/-- Follow the `errors.Unwrap` chain to the innermost error. -/
def GoErr.rootCause : GoErr → GoErr
  | .wrapped _ cause => cause.rootCause
  | e => e

/-- An outgoing HTTP request as constructed by the pipeline.  `headers`
mirrors `http.Header.Set` calls (each key set once); `body` is the
marshalled JSON payload, `none` when no body is sent. -/
structure HttpRequest where
  method : String
  url : String
  headers : List (String × String)
  body : Option Json

/-- A delivered HTTP response: the status code and the outcome of
reading its body stream. -/
structure HttpResponse where
  statusCode : Nat
  body : Except String RawBody

/-- The pluggable transport (`http.Client.Do`): either a transport-level
failure or a delivered response. -/
def Transport : Type := HttpRequest → Except String HttpResponse

/-- Observable resource effects of one call, in order of occurrence. -/
inductive Effect where
  | transportCall (req : HttpRequest) : Effect
  | readBody : Effect
  | closeBody : Effect

/-- Result of a Go function returning `(*T, error)`: the two returns,
plus the effect trace of the call. -/
def GoResult (α : Type) : Type := Option α × Option GoErr × List Effect

/-- A Go panic, made explicit. -/
inductive PanicOr (α : Type) where
  | panicked (msg : String) : PanicOr α
  | ok (val : α) : PanicOr α

def PanicOr.isOk {α : Type} : PanicOr α → Bool
  | .ok _ => true
  | .panicked _ => false

/-- The message of a Go nil-pointer dereference panic. -/
def nilDerefMsg : String :=
  "runtime error: invalid memory address or nil pointer dereference"

/-! ## Error decoding (`client.go:163-169`, `Error` type) -/

/-- Last-wins lookup in a JSON object's field list (Go's `json.Unmarshal`
lets a later duplicate key overwrite an earlier one). -/
def lookupLast (key : String) : List (String × Json) → Option Json
  | [] => none
  | (k, v) :: rest =>
      match lookupLast key rest with
      | some w => some w
      | none => if k = key then some v else none

/-- `json.Unmarshal(data, &apiErr)` for `Error{Code int, Detail string}`:
fails on malformed bytes, on a non-object top level (other than `null`),
and on a field of the wrong type; missing fields keep their zero value;
`null` leaves the zero value. -/
def unmarshalGoError : RawBody → Except String (Int × String)
  | .malformed msg => .error msg
  | .wellFormed j =>
      match j with
      | .null => .ok (0, "")
      | .obj fields =>
          let codeRes : Except String Int :=
            match lookupLast "code" fields with
            | none => .ok 0
            | some (.num n) => .ok n
            | some .null => .ok 0
            | some _ => .error "json: cannot unmarshal value into Go struct field Error.code of type int"
          let detailRes : Except String String :=
            match lookupLast "detail" fields with
            | none => .ok ""
            | some (.str s) => .ok s
            | some .null => .ok ""
            | some _ => .error "json: cannot unmarshal value into Go struct field Error.detail of type string"
          match codeRes, detailRes with
          | .ok c, .ok d => .ok (c, d)
          | .error m, _ => .error m
          | _, .error m => .error m
      | _ => .error "json: cannot unmarshal value into Go value of type recallaigo.Error"

/-- `decodeClientError` (`client.go:163`): unmarshal the raw bytes into
the structured `Error`; on failure return
`fmt.Errorf("failed to decode error response: %w", err)`. -/
def decodeClientError (data : RawBody) : GoErr :=
  match unmarshalGoError data with
  | .error msg => .wrapped "failed to decode error response" (.simple msg)
  | .ok (c, d) => .apiError c d

/-! ## Query encoding (`url.Values.Encode` as used in `client.go:123-132`) -/

/-- Uppercase hex digit. -/
def hexDigit (n : Nat) : Char :=
  if n < 10 then Char.ofNat (n + 48) else Char.ofNat (n - 10 + 65)

/-- Go `url.QueryEscape` byte classification: bytes `A-Z a-z 0-9 - _ . ~`
are kept, space becomes `+`, everything else is `%XX`-encoded. -/
def escapeByte (b : Nat) : String :=
  if (65 ≤ b ∧ b ≤ 90) ∨ (97 ≤ b ∧ b ≤ 122) ∨ (48 ≤ b ∧ b ≤ 57)
      ∨ b = 45 ∨ b = 95 ∨ b = 46 ∨ b = 126 then
    String.singleton (Char.ofNat b)
  else if b = 32 then "+"
  else "%" ++ String.singleton (hexDigit (b / 16)) ++ String.singleton (hexDigit (b % 16))

/-- The UTF-8 encoding of one character (Go strings are UTF-8 byte
sequences; escaping operates on bytes). -/
def charUTF8Bytes (c : Char) : List Nat :=
  let n := c.toNat
  if n < 0x80 then [n]
  else if n < 0x800 then
    [0xC0 ||| (n >>> 6), 0x80 ||| (n &&& 0x3F)]
  else if n < 0x10000 then
    [0xE0 ||| (n >>> 12), 0x80 ||| ((n >>> 6) &&& 0x3F), 0x80 ||| (n &&& 0x3F)]
  else
    [0xF0 ||| (n >>> 18), 0x80 ||| ((n >>> 12) &&& 0x3F),
     0x80 ||| ((n >>> 6) &&& 0x3F), 0x80 ||| (n &&& 0x3F)]

/-- Go `url.QueryEscape` over the UTF-8 bytes of a string. -/
def queryEscape (s : String) : String :=
  String.join ((s.data.flatMap charUTF8Bytes).map escapeByte)

/-- `url.Values.Encode` sorts keys ascending before emitting pairs. -/
def sortByKey (qp : List (String × List String)) : List (String × List String) :=
  qp.insertionSort (fun p q => p.1 ≤ q.1)

/-- The ordered `key=value` pairs emitted by `url.Values.Encode`: keys in
sorted order, each key's values in slice order, one pair per value. -/
def queryPairs (qp : List (String × List String)) : List (String × String) :=
  (sortByKey qp).flatMap fun p => p.2.map fun v => (p.1, v)

/-- `url.Values.Encode`: `&`-joined escaped `key=value` pairs. -/
def encodeQuery (qp : List (String × List String)) : String :=
  String.intercalate "&"
    ((queryPairs qp).map fun p => queryEscape p.1 ++ "=" ++ queryEscape p.2)

/-! ## The request pipeline (`client.go:102-161`) -/

/-- `net/url` parse check for the relative reference, approximated by its
dominant failure mode: ASCII control characters are rejected. -/
def urlParseOk (s : String) : Bool :=
  s.toList.all fun ch => 32 ≤ ch.toNat ∧ ch.toNat ≠ 127

/-- The per-call configuration `requestImpl` reads from the `Client`
receiver: credential token, resolved base URL, API version. -/
structure ClientCfg where
  token : String
  baseUrl : String
  apiVersion : String
deriving DecidableEq

/-- The HTTP request `requestImpl` constructs (`client.go:106-142`):
the base URL joined with `api/{version}/{urlStr}`, the encoded query
appended when the parameter map is non-empty and encodes non-trivially
(`u.String()` omits a `?` for an empty `RawQuery`), the two `Set`
headers, and the marshalled body. -/
def builtRequest (c : ClientCfg) (method urlStr : String)
    (queryParams : List (String × List String)) (requestBody : Option Json) :
    HttpRequest :=
  let rel := "api/" ++ c.apiVersion ++ "/" ++ urlStr
  let joined := c.baseUrl ++ "/" ++ rel
  let rawQuery := if queryParams.length > 0 then encodeQuery queryParams else ""
  let urlStr' := if rawQuery = "" then joined else joined ++ "?" ++ rawQuery
  { method := method
    url := urlStr'
    headers := [("Content-Type", "application/json"),
                ("Authorization", "Token " ++ c.token)]
    body := requestBody }

/-- `requestImpl` (`client.go:106-161`), the request pipeline.  Mirrors
the Go control flow return-by-return:
1. parse `api/{version}/{urlStr}` against the base URL;
2. marshal the body when the interface value is non-nil (`Option`);
3. add query parameters to the URL when the map is non-empty;
4. set the `Content-Type` and `Authorization` headers
   (steps 2-4 are gathered in `builtRequest`);
5. execute through the transport;
6. on a non-2xx status, read the whole error body and hand the bytes to
   `errDecoder`; on 2xx return the response with its body unread.
The effect trace records the transport call and every body read/close
(the Go error path contains no `res.Body.Close()`). -/
def requestImpl (c : ClientCfg) (method urlStr : String)
    (queryParams : List (String × List String)) (requestBody : Option Json)
    (errDecoder : RawBody → GoErr) (t : Transport) : GoResult HttpResponse :=
  if ¬ urlParseOk ("api/" ++ c.apiVersion ++ "/" ++ urlStr) then
    (none, some (.wrapped "failed to parse request URL"
      (.simple "parse error")), [])
  else
    let req : HttpRequest := builtRequest c method urlStr queryParams requestBody
    match t req with
    | .error msg =>
        (none, some (.wrapped "HTTP request failed" (.simple msg)),
          [.transportCall req])
    | .ok res =>
        if res.statusCode < 200 ∨ 300 ≤ res.statusCode then
          match res.body with
          | .error msg =>
              (none, some (.wrapped "failed to read error response body"
                (.simple msg)), [.transportCall req, .readBody])
          | .ok data =>
              (none, some (errDecoder data), [.transportCall req, .readBody])
        else
          (some res, none, [.transportCall req])

/-- A `Client` as the operation wrappers see it: credential, resolved
base URL, and the configured transport. -/
structure Client where
  token : String
  baseUrl : String
  transport : Transport

/-- The fixed major API version (`client.go:14`). -/
def apiVersionV1 : String := "v1"

/-- Modelled from the spec: the distinct beta API version addressed by
the media-analysis operation.  The constant `apiVersionV2Beta` is
referenced by `bot.go` but declared in a revision of `client.go` not
present in the sources; the spec pins it only as "a distinct (beta)
version". -/
def apiVersionV2Beta : String := "v2beta"

/-- Modelled from the spec: the richer revision's entry point
`Client.request(ctx, method, urlStr, queryParams, requestBody, version)`
(the one `bot.go` calls, declared in a revision of `client.go` not
present in the sources).  Per the spec, it runs the pipeline with the
per-call API version and the standard error decoder. -/
def Client.request (c : Client) (method urlStr : String)
    (queryParams : List (String × List String)) (requestBody : Option Json)
    (version : String) : GoResult HttpResponse :=
  requestImpl ⟨c.token, c.baseUrl, version⟩ method urlStr queryParams
    requestBody decodeClientError c.transport

/-! ## Client construction (`client.go:14-100`) -/

/-- The four enumerated regions (`client.go:24-29`). -/
inductive Region where
  | usEast : Region
  | usWest : Region
  | eu : Region
  | japan : Region
deriving DecidableEq

/-- `Region.String()` (`client.go:31-33`). -/
def Region.string : Region → String
  | .usEast => "us-east-1"
  | .usWest => "us-west-2"
  | .eu => "eu-central-1"
  | .japan => "ap-northeast-1"

/-- `Region.BaseURL()` (`client.go:35-37`). -/
def Region.baseURL (r : Region) : String :=
  "https://" ++ r.string ++ ".recall.ai"

/-- `setBaseURL` (`client.go:75-83`): parse the region's address; on
failure return a wrapped error, otherwise install it. -/
def setBaseURL (r : Region) : Except GoErr String :=
  if urlParseOk r.baseURL then .ok r.baseURL
  else .error (.wrapped "failed to parse base URL" (.simple "parse error"))

/-- A configuration option (`WithHTTPClient`, `WithRegion`;
`client.go:86-100`). -/
inductive ClientOption where
  | withHTTPClient (t : Transport) : ClientOption
  | withRegion (r : Region) : ClientOption

/-- Apply one option.  `WithRegion` re-resolves the base URL and panics
if that fails (`client.go:96-98`). -/
def applyOption (c : Client) : ClientOption → PanicOr Client
  | .withHTTPClient t => .ok { c with transport := t }
  | .withRegion r =>
      match setBaseURL r with
      | .ok base => .ok { c with baseUrl := base }
      | .error e => .panicked ("failed to set base URL: " ++ e.message)

/-- Apply options in order, propagating a panic. -/
def applyOptions (c : Client) : List ClientOption → PanicOr Client
  | [] => .ok c
  | opt :: rest =>
      match applyOption c opt with
      | .ok c' => applyOptions c' rest
      | .panicked msg => .panicked msg

/-- `NewClient` (`client.go:54-73`): default transport, default region
`UsEast`, resolve the base URL (panicking on failure), then apply the
options in order. -/
def newClient (defaultTransport : Transport) (token : String)
    (opts : List ClientOption) : PanicOr Client :=
  match setBaseURL Region.usEast with
  | .error e => .panicked ("failed to set base URL: " ++ e.message)
  | .ok base =>
      applyOptions { token := token, baseUrl := base,
                     transport := defaultTransport } opts

/-! ## Operation wrappers (`bot.go`)

Every wrapper follows one of two shapes, factored here exactly as the
Go code repeats them.  The per-operation data-transfer structures are
not modelled beyond the fields the wrappers themselves read (no claim
depends on them): a request body is passed as its marshalled `Json`
document, and a decoded success body is returned as the parsed `Json`
document. -/

/-- Result of a wrapper returning `(*T, error)`: possible panic, then
the decoded success document, the error, and the effect trace. -/
def OpResult : Type := PanicOr (GoResult Json)

/-- Shared shape of the wrappers that decode a JSON success body:
```
res, err := c.client.request(...)
if err != nil { return nil, fmt.Errorf(context+": %w", err) }
defer res.Body.Close()
[if res.StatusCode != http.StatusOK { return nil, errors.New("unexpected status code: ...") }]
var response T
if err := json.NewDecoder(res.Body).Decode(&response); err != nil {
    return nil, fmt.Errorf("failed to decode response: %w", err)
}
return &response, nil
```
`check200` selects the optional status check.  If the pipeline returned
neither a response nor an error, `res.Body` would be a nil dereference:
that is the `panicked` branch. -/
def runJSONOp (c : Client) (context : String) (method path : String)
    (queryParams : List (String × List String)) (body : Option Json)
    (version : String) (check200 : Bool) : OpResult :=
  match c.request method path queryParams body version with
  | (_, some err, tr) => .ok (none, some (.wrapped context err), tr)
  | (some res, none, tr) =>
      if check200 ∧ res.statusCode ≠ 200 then
        .ok (none, some (.simple ("unexpected status code: " ++ toString res.statusCode)),
          tr ++ [.closeBody])
      else
        match res.body with
        | .ok (.wellFormed j) => .ok (some j, none, tr ++ [.readBody, .closeBody])
        | .ok (.malformed m) =>
            .ok (none, some (.wrapped "failed to decode response" (.simple m)),
              tr ++ [.readBody, .closeBody])
        | .error m =>
            .ok (none, some (.wrapped "failed to decode response" (.simple m)),
              tr ++ [.readBody, .closeBody])
  | (none, none, _) => .panicked nilDerefMsg

/-- Shared shape of the wrappers that return only `error` and require an
exact status code (`DeleteScheduledBot`/`DeleteBotMedia` expect 204, the
stop-output wrappers expect 200), closing the body and decoding
nothing. -/
def runStatusOp (c : Client) (context : String) (method path : String)
    (version : String) (wantStatus : Nat) :
    PanicOr (Option GoErr × List Effect) :=
  match c.request method path [] none version with
  | (_, some err, tr) => .ok (some (.wrapped context err), tr)
  | (some res, none, tr) =>
      if res.statusCode ≠ wantStatus then
        .ok (some (.simple ("unexpected status code: " ++ toString res.statusCode)),
          tr ++ [.closeBody])
      else .ok (none, tr ++ [.closeBody])
  | (none, none, _) => .panicked nilDerefMsg

/-! ### List-bots filtering (`bot.go:83-516`) -/

/-- `ListBotsParams` (`bot.go:84-97`).  `Platform`/`Status` values are
their wire strings (Go's `String()` on those string-typed enums is the
identity). -/
structure ListBotsParams where
  joinAtAfter : String := ""
  joinAtBefore : String := ""
  meetingURL : String := ""
  page : Int := 0
  platform : List String := []
  status : List String := []

/-- `buildQueryParams` (`bot.go:488-516`): skip empty strings, zero page,
and empty slices; multi-valued filters keep one entry per value
(`convertToStringSlice` maps `String()` over the slice). -/
def buildQueryParams : Option ListBotsParams → List (String × List String)
  | none => []
  | some p =>
      let q : List (String × List String) := []
      let q := if p.joinAtAfter ≠ "" then q ++ [("join_at_after", [p.joinAtAfter])] else q
      let q := if p.joinAtBefore ≠ "" then q ++ [("join_at_before", [p.joinAtBefore])] else q
      let q := if p.meetingURL ≠ "" then q ++ [("meeting_url", [p.meetingURL])] else q
      let q := if p.page ≠ 0 then q ++ [("page", [toString p.page])] else q
      let q := if p.platform.length > 0 then q ++ [("platform", p.platform)] else q
      let q := if p.status.length > 0 then q ++ [("status", p.status)] else q
      q

/-! ### The bot operations -/

/-- `ListBots` (`bot.go:465-486`): GET `bot` with the filter's query
parameters, v1, decode the body (no explicit status check). -/
def listBots (c : Client) (params : Option ListBotsParams) : OpResult :=
  runJSONOp c "failed to list bots" "GET" "bot" (buildQueryParams params)
    none apiVersionV1 false

/-- `CreateBotRequest` (`bot.go:527-576`), restricted to the fields the
wrapper itself reads (`Validate` looks only at these two). -/
structure CreateBotRequest where
  meetingURL : String
  botName : String

/-- The marshalled body of a create request (remaining fields of the
request structure play no role in any claim). -/
def CreateBotRequest.toJson (r : CreateBotRequest) : Json :=
  .obj [("meeting_url", .str r.meetingURL), ("bot_name", .str r.botName)]

/-- `CreateBotRequest.Validate` (`bot.go:576-585`). -/
def CreateBotRequest.validate (r : CreateBotRequest) : Option GoErr :=
  if r.meetingURL = "" then some (.simple "meeting URL is required")
  else if r.botName = "" then some (.simple "bot name is required")
  else none

/-- `CreateBot` (`bot.go:589-606`): `request.Validate()` dereferences the
request pointer, so a nil request panics; a validation failure returns
`fmt.Errorf("invalid request: %w", err)` before any transport call;
otherwise POST `bot` with the body, v1, decode. -/
def createBot (c : Client) (request : Option CreateBotRequest) : OpResult :=
  match request with
  | none => .panicked nilDerefMsg
  | some r =>
      match r.validate with
      | some err => .ok (none, some (.wrapped "invalid request" err), [])
      | none =>
          runJSONOp c "failed to create bot" "POST" "bot" [] (some r.toJson)
            apiVersionV1 false

/-- `ListChatMessagesParams` (`bot.go:609-612`). -/
structure ListChatMessagesParams where
  cursor : String := ""
  ordering : String := ""

/-- `ListChatMessages` (`bot.go:621-646`): GET `bot/{id}/chat-messages`
with optional cursor/ordering, v1, decode (no status check).  The Go
variadic `params ...` is its first element or nothing. -/
def listChatMessages (c : Client) (botID : String)
    (params : Option ListChatMessagesParams) : OpResult :=
  let queryParams : List (String × List String) :=
    match params with
    | none => []
    | some p =>
        let q : List (String × List String) := []
        let q := if p.cursor ≠ "" then q ++ [("cursor", [p.cursor])] else q
        let q := if p.ordering ≠ "" then q ++ [("ordering", [p.ordering])] else q
        q
  runJSONOp c "failed to list chat messages" "GET" ("bot/" ++ botID ++ "/chat-messages")
    queryParams none apiVersionV1 false

/-- `RetrieveBot` (`bot.go:655-673`): GET `bot/{id}`, v1, decode. -/
def retrieveBot (c : Client) (botID : String) : OpResult :=
  runJSONOp c "failed to retrieve bot" "GET" ("bot/" ++ botID) [] none
    apiVersionV1 false

/-- `UpdateScheduledBot` (`bot.go:677-695`): PATCH `bot/{id}` with the
update body, v1, decode. -/
def updateScheduledBot (c : Client) (botID : String) (request : Option Json) :
    OpResult :=
  runJSONOp c "failed to update scheduled bot" "PATCH" ("bot/" ++ botID) []
    request apiVersionV1 false

/-- `DeleteScheduledBot` (`bot.go:699-716`): DELETE `bot/{id}`, v1,
expect 204. -/
def deleteScheduledBot (c : Client) (botID : String) :
    PanicOr (Option GoErr × List Effect) :=
  runStatusOp c "failed to delete scheduled bot" "DELETE" ("bot/" ++ botID)
    apiVersionV1 204

/-- `DeleteBotMedia` (`bot.go:720-737`): POST `bot/{id}/delete_media`,
v1, expect 204. -/
def deleteBotMedia (c : Client) (botID : String) :
    PanicOr (Option GoErr × List Effect) :=
  runStatusOp c "failed to delete bot media" "POST"
    ("bot/" ++ botID ++ "/delete_media") apiVersionV1 204

/-- `GetBotLogs` (`bot.go:765-788`): GET `bot/{id}/logs`, v1, require
200, decode. -/
def getBotLogs (c : Client) (botID : String) : OpResult :=
  runJSONOp c "failed to get bot logs" "GET" ("bot/" ++ botID ++ "/logs") []
    none apiVersionV1 true

/-- `OutputAudio` (`bot.go:804-827`): POST `bot/{id}/output_audio` with
the body, v1, require 200, decode. -/
def outputAudio (c : Client) (botID : String) (request : Option Json) : OpResult :=
  runJSONOp c "failed to output audio" "POST" ("bot/" ++ botID ++ "/output_audio")
    [] request apiVersionV1 true

/-- `StopOutputAudio` (`bot.go:831-848`): DELETE `bot/{id}/output_audio`,
v1, expect 200. -/
def stopOutputAudio (c : Client) (botID : String) :
    PanicOr (Option GoErr × List Effect) :=
  runStatusOp c "failed to stop output audio" "DELETE"
    ("bot/" ++ botID ++ "/output_audio") apiVersionV1 200

/-- `OutputMedia` (`bot.go:852-875`): POST `bot/{id}/output_media`, v1,
require 200, decode. -/
def outputMedia (c : Client) (botID : String) (request : Option Json) : OpResult :=
  runJSONOp c "failed to output media" "POST" ("bot/" ++ botID ++ "/output_media")
    [] request apiVersionV1 true

/-- `StopOutputMedia` (`bot.go:878-896`): DELETE `bot/{id}/output_media`,
v1, expect 200. -/
def stopOutputMedia (c : Client) (botID : String) :
    PanicOr (Option GoErr × List Effect) :=
  runStatusOp c "failed to stop output media" "DELETE"
    ("bot/" ++ botID ++ "/output_media") apiVersionV1 200

/-- `StartScreenshare` (`bot.go:912-936`): POST
`bot/{id}/output_screenshare`, v1, require 200, decode. -/
def startScreenshare (c : Client) (botID : String) (request : Option Json) :
    OpResult :=
  runJSONOp c "failed to start screenshare" "POST"
    ("bot/" ++ botID ++ "/output_screenshare") [] request apiVersionV1 true

/-- `StopScreenshare` (`bot.go:939-957`): DELETE
`bot/{id}/output_screenshare`, v1, expect 200. -/
def stopScreenshare (c : Client) (botID : String) :
    PanicOr (Option GoErr × List Effect) :=
  runStatusOp c "failed to stop screenshare" "DELETE"
    ("bot/" ++ botID ++ "/output_screenshare") apiVersionV1 200

/-- `OutputVideo` (`bot.go:960-984`): POST `bot/{id}/output_video`, v1,
require 200, decode. -/
def outputVideo (c : Client) (botID : String) (request : Option Json) : OpResult :=
  runJSONOp c "failed to output video" "POST" ("bot/" ++ botID ++ "/output_video")
    [] request apiVersionV1 true

/-- `StopOutputVideo` (`bot.go:987-1005`): DELETE `bot/{id}/output_video`,
v1, expect 200. -/
def stopOutputVideo (c : Client) (botID : String) :
    PanicOr (Option GoErr × List Effect) :=
  runStatusOp c "failed to stop output video" "DELETE"
    ("bot/" ++ botID ++ "/output_video") apiVersionV1 200

/-- `PauseRecording` (`bot.go:1008-1032`): POST
`bot/{id}/pause_recording`, v1, require 200, decode. -/
def pauseRecording (c : Client) (botID : String) : OpResult :=
  runJSONOp c "failed to pause recording" "POST"
    ("bot/" ++ botID ++ "/pause_recording") [] none apiVersionV1 true

/-- `RequestRecordingPermission` (`bot.go:1036-1060`): POST
`bot/{id}/request_recording_permission`, v1, require 200, decode. -/
def requestRecordingPermission (c : Client) (botID : String) : OpResult :=
  runJSONOp c "failed to request recording permission" "POST"
    ("bot/" ++ botID ++ "/request_recording_permission") [] none apiVersionV1 true

/-- `ResumeRecording` (`bot.go:1063-1087`): POST
`bot/{id}/resume_recording`, v1, require 200, decode. -/
def resumeRecording (c : Client) (botID : String) : OpResult :=
  runJSONOp c "failed to resume recording" "POST"
    ("bot/" ++ botID ++ "/resume_recording") [] none apiVersionV1 true

/-- `SendChatMessage` (`bot.go:1101-1125`): POST
`bot/{id}/send_chat_message` with the body, v1, require 200, decode. -/
def sendChatMessage (c : Client) (botID : String) (request : Option Json) :
    OpResult :=
  runJSONOp c "failed to send chat message" "POST"
    ("bot/" ++ botID ++ "/send_chat_message") [] request apiVersionV1 true

/-- `GetSpeakerTimeline` (`bot.go:1140-1168`): GET
`bot/{id}/speaker_timeline`, optional `exclude_null_speaker=true`, v1,
require 200, decode. -/
def getSpeakerTimeline (c : Client) (botID : String)
    (excludeNullSpeaker : Option Bool) : OpResult :=
  let queryParams : List (String × List String) :=
    match excludeNullSpeaker with
    | some true => [("exclude_null_speaker", ["true"])]
    | _ => []
  runJSONOp c "failed to get speaker timeline" "GET"
    ("bot/" ++ botID ++ "/speaker_timeline") queryParams none apiVersionV1 true

/-- `StartRecording` (`bot.go:1183-1206`): POST
`bot/{id}/start_recording` with the body, v1, require 200, decode. -/
def startRecording (c : Client) (botID : String) (request : Option Json) :
    OpResult :=
  runJSONOp c "failed to start recording" "POST"
    ("bot/" ++ botID ++ "/start_recording") [] request apiVersionV1 true

/-- `StopRecording` (`bot.go:1210-1233`): POST `bot/{id}/stop_recording`,
v1, require 200, decode. -/
def stopRecording (c : Client) (botID : String) : OpResult :=
  runJSONOp c "failed to stop recording" "POST"
    ("bot/" ++ botID ++ "/stop_recording") [] none apiVersionV1 true

/-- `GetBotTranscript` (`bot.go:1259-1288`): GET `bot/{id}/transcript`,
optional `enhanced_diarization=true`, v1, require 200, decode. -/
def getBotTranscript (c : Client) (botID : String)
    (enhancedDiarization : Option Bool) : OpResult :=
  let queryParams : List (String × List String) :=
    match enhancedDiarization with
    | some true => [("enhanced_diarization", ["true"])]
    | _ => []
  runJSONOp c "failed to get bot transcript" "GET"
    ("bot/" ++ botID ++ "/transcript") queryParams none apiVersionV1 true

/-- `AnalyzeBotMedia` (`bot.go:1679-1696`): POST `bot/{id}/analyze` with
the body, **v2beta**, decode (no status check). -/
def analyzeBotMedia (c : Client) (botId : String) (request : Option Json) :
    OpResult :=
  runJSONOp c "failed to analyze bot media" "POST" ("bot/" ++ botId ++ "/analyze")
    [] request apiVersionV2Beta false

/-! ## Helper observations on traces -/

/-- The URL of the first transport call recorded in a trace. -/
def requestUrlOf : List Effect → Option String
  | [] => none
  | .transportCall req :: _ => some req.url
  | _ :: rest => requestUrlOf rest

/-- A concrete transport double: always delivers status 400 with the
body `{"code": 40001, "detail": "bad request"}`. -/
def t400 : Transport := fun _ =>
  .ok ⟨400, .ok (.wellFormed (.obj [("code", .num 40001), ("detail", .str "bad request")]))⟩

/-- A concrete transport double: always delivers status 200 with the
body `{}`. -/
def t200 : Transport := fun _ => .ok ⟨200, .ok (.wellFormed (.obj []))⟩

/-- A concrete client configuration used by witnesses. -/
def cfg0 : ClientCfg := ⟨"some_token", "https://us-east-1.recall.ai", "v1"⟩

/-! ## C1 -/

/-- C1: every run of the request pipeline produces exactly one of
success or error: on a delivered 2xx response the pipeline returns that
response with a nil error and without reading its body; on a delivered
non-2xx response whose body reads back as `data` it returns a nil
response together with the decoder's error on `data`; in every case
exactly one of the two result slots is filled. -/
theorem requestImpl_exactly_one_of_success_error
    (c : ClientCfg) (method urlStr : String)
    (qp : List (String × List String)) (body : Option Json)
    (dec : RawBody → GoErr) (t : Transport) :
    let out := requestImpl c method urlStr qp body dec t
    (((out.1).isSome ∧ out.2.1 = none) ∨ (out.1 = none ∧ (out.2.1).isSome))
    ∧ (∀ res, out.1 = some res →
        200 ≤ res.statusCode ∧ res.statusCode < 300 ∧ Effect.readBody ∉ out.2.2)
    ∧ (∀ req res data, Effect.transportCall req ∈ out.2.2 → t req = .ok res →
        (res.statusCode < 200 ∨ 300 ≤ res.statusCode) → res.body = .ok data →
        out.1 = none ∧ out.2.1 = some (dec data))
    ∧ (∀ res, urlParseOk ("api/" ++ c.apiVersion ++ "/" ++ urlStr) = true →
        t (builtRequest c method urlStr qp body) = .ok res →
        200 ≤ res.statusCode → res.statusCode < 300 →
        out.1 = some res ∧ out.2.1 = none ∧ Effect.readBody ∉ out.2.2) := by
  dsimp only [requestImpl]
  split
  · rename_i hpf
    exact ⟨Or.inr ⟨rfl, rfl⟩, fun res hres => by simp at hres,
      fun req res data hmem => by simp at hmem,
      fun res hpok => absurd hpok hpf⟩
  · split
    · rename_i heq
      refine ⟨Or.inr ⟨rfl, rfl⟩, fun res hres => by simp at hres,
        fun req res data hmem hok hst hbody => ?_,
        fun res hpok hok h1 h2 => ?_⟩
      · simp only [List.mem_singleton] at hmem
        cases hmem
        rw [heq] at hok
        exact absurd hok (by simp)
      · rw [heq] at hok
        exact absurd hok (by simp)
    · rename_i res' heq
      split
      · rename_i hst'
        split
        · rename_i msg' hbodyeq
          refine ⟨Or.inr ⟨rfl, rfl⟩, fun res hres => by simp at hres,
            fun req res data hmem hok hst hbody => ?_,
            fun res hpok hok h1 h2 => ?_⟩
          · simp only [List.mem_cons, List.not_mem_nil, or_false] at hmem
            rcases hmem with hmem | hmem
            · cases hmem
              rw [heq] at hok
              cases hok
              rw [hbodyeq] at hbody
              exact absurd hbody (by simp)
            · exact absurd hmem (by simp)
          · rw [heq] at hok
            cases hok
            exact absurd hst' (by omega)
        · rename_i data' hbodyeq
          refine ⟨Or.inr ⟨rfl, rfl⟩, fun res hres => by simp at hres,
            fun req res data hmem hok hst hbody => ?_,
            fun res hpok hok h1 h2 => ?_⟩
          · simp only [List.mem_cons, List.not_mem_nil, or_false] at hmem
            rcases hmem with hmem | hmem
            · cases hmem
              rw [heq] at hok
              cases hok
              rw [hbodyeq] at hbody
              cases hbody
              exact ⟨rfl, rfl⟩
            · exact absurd hmem (by simp)
          · rw [heq] at hok
            cases hok
            exact absurd hst' (by omega)
      · rename_i hst'
        refine ⟨Or.inl ⟨rfl, rfl⟩, fun res hres => ?_,
          fun req res data hmem hok hst hbody => ?_,
          fun res hpok hok h1 h2 => ?_⟩
        · cases hres
          refine ⟨?_, ?_, by simp⟩ <;> omega
        · simp only [List.mem_singleton] at hmem
          cases hmem
          rw [heq] at hok
          cases hok
          exact absurd hst hst'
        · rw [heq] at hok
          cases hok
          exact ⟨rfl, rfl, by simp⟩

/-! ## Shared characterization lemmas -/

/-- The URL of the built request: the base address joined with
`api/{version}/{relativePath}`, followed by the encoded query (with a
`?`) exactly when the query encodes non-trivially. -/
theorem builtRequest_url (c : ClientCfg) (method urlStr : String)
    (qp : List (String × List String)) (body : Option Json) :
    (builtRequest c method urlStr qp body).url =
      c.baseUrl ++ "/" ++ ("api/" ++ c.apiVersion ++ "/" ++ urlStr)
        ++ (if encodeQuery qp = "" then "" else "?" ++ encodeQuery qp) := by
  dsimp only [builtRequest]
  by_cases hq : qp.length > 0
  · simp only [if_pos hq]
    by_cases he : encodeQuery qp = ""
    · simp [he]
    · simp [he, String.append_assoc]
  · have h0 : qp = [] := List.length_eq_zero.mp (by omega)
    subst h0
    have he : encodeQuery [] = "" := rfl
    simp [he]

/-- The headers of every built request. -/
theorem builtRequest_headers (c : ClientCfg) (method urlStr : String)
    (qp : List (String × List String)) (body : Option Json) :
    (builtRequest c method urlStr qp body).headers =
      [("Content-Type", "application/json"),
       ("Authorization", "Token " ++ c.token)] := rfl

/-- The method and body of every built request. -/
theorem builtRequest_method_body (c : ClientCfg) (method urlStr : String)
    (qp : List (String × List String)) (body : Option Json) :
    (builtRequest c method urlStr qp body).method = method
      ∧ (builtRequest c method urlStr qp body).body = body := ⟨rfl, rfl⟩

/-- Exhaustive description of the pipeline's outcomes once the relative
URL parses: a transport failure, a 2xx success, a non-2xx response whose
body read fails, or a non-2xx response whose body reads back and is
decoded. -/
theorem requestImpl_shape (c : ClientCfg) (method urlStr : String)
    (qp : List (String × List String)) (body : Option Json)
    (dec : RawBody → GoErr) (t : Transport)
    (h : urlParseOk ("api/" ++ c.apiVersion ++ "/" ++ urlStr) = true) :
    (∃ msg, t (builtRequest c method urlStr qp body) = .error msg
      ∧ requestImpl c method urlStr qp body dec t =
          (none, some (.wrapped "HTTP request failed" (.simple msg)),
            [.transportCall (builtRequest c method urlStr qp body)]))
    ∨ (∃ res, t (builtRequest c method urlStr qp body) = .ok res
      ∧ 200 ≤ res.statusCode ∧ res.statusCode < 300
      ∧ requestImpl c method urlStr qp body dec t =
          (some res, none, [.transportCall (builtRequest c method urlStr qp body)]))
    ∨ (∃ res msg, t (builtRequest c method urlStr qp body) = .ok res
      ∧ (res.statusCode < 200 ∨ 300 ≤ res.statusCode) ∧ res.body = .error msg
      ∧ requestImpl c method urlStr qp body dec t =
          (none, some (.wrapped "failed to read error response body" (.simple msg)),
            [.transportCall (builtRequest c method urlStr qp body), .readBody]))
    ∨ (∃ res data, t (builtRequest c method urlStr qp body) = .ok res
      ∧ (res.statusCode < 200 ∨ 300 ≤ res.statusCode) ∧ res.body = .ok data
      ∧ requestImpl c method urlStr qp body dec t =
          (none, some (dec data),
            [.transportCall (builtRequest c method urlStr qp body), .readBody])) := by
  dsimp only [requestImpl]
  rw [if_neg (by simp [h])]
  cases ht : t (builtRequest c method urlStr qp body) with
  | error msg => exact Or.inl ⟨msg, rfl, rfl⟩
  | ok res =>
      dsimp only
      by_cases hst : res.statusCode < 200 ∨ 300 ≤ res.statusCode
      · rw [if_pos hst]
        cases hb : res.body with
        | error msg =>
            dsimp only
            exact Or.inr (Or.inr (Or.inl ⟨res, msg, rfl, hst, hb, rfl⟩))
        | ok data =>
            dsimp only
            exact Or.inr (Or.inr (Or.inr ⟨res, data, rfl, hst, hb, rfl⟩))
      · rw [if_neg hst]
        exact Or.inr (Or.inl ⟨res, rfl, by omega, by omega, rfl⟩)

/-- The empty parameter map encodes to the empty query string. -/
theorem encodeQuery_nil : encodeQuery [] = "" := rfl

/-- The effect trace of a wrapper returning `(*T, error)`. -/
def opTrace : OpResult → List Effect
  | .ok (_, _, tr) => tr
  | .panicked _ => []

/-- The effect trace of a wrapper returning only `error`. -/
def statusOpTrace : PanicOr (Option GoErr × List Effect) → List Effect
  | .ok (_, tr) => tr
  | .panicked _ => []

/-- The error of a wrapper returning `(*T, error)`. -/
def opErr : OpResult → Option GoErr
  | .ok (_, e, _) => e
  | .panicked _ => none

/-- The success value of a wrapper returning `(*T, error)`. -/
def opVal : OpResult → Option Json
  | .ok (v, _, _) => v
  | .panicked _ => none

/-- Every `runJSONOp` wrapper sends its (single) transport request to
the URL built by the pipeline from the per-call version. -/
theorem runJSONOp_requestUrl (c : Client) (ctx method path : String)
    (qp : List (String × List String)) (body : Option Json) (ver : String)
    (chk : Bool) (h : urlParseOk ("api/" ++ ver ++ "/" ++ path) = true) :
    requestUrlOf (opTrace (runJSONOp c ctx method path qp body ver chk)) =
      some ((builtRequest ⟨c.token, c.baseUrl, ver⟩ method path qp body).url) := by
  rcases requestImpl_shape ⟨c.token, c.baseUrl, ver⟩ method path qp body
      decodeClientError c.transport h with
    ⟨msg, ht, heq⟩ | ⟨res, ht, h1, h2, heq⟩ | ⟨res, msg, ht, hst, hb, heq⟩
      | ⟨res, data, ht, hst, hb, heq⟩
  · unfold runJSONOp Client.request
    rw [heq]
    rfl
  · unfold runJSONOp Client.request
    rw [heq]
    dsimp only
    split
    · rfl
    · cases hbr : res.body with
      | error m => rfl
      | ok rb => cases rb <;> rfl
  · unfold runJSONOp Client.request
    rw [heq]
    rfl
  · unfold runJSONOp Client.request
    rw [heq]
    rfl

/-- Every `runStatusOp` wrapper sends its (single) transport request to
the URL built by the pipeline from the per-call version. -/
theorem runStatusOp_requestUrl (c : Client) (ctx method path : String)
    (ver : String) (want : Nat)
    (h : urlParseOk ("api/" ++ ver ++ "/" ++ path) = true) :
    requestUrlOf (statusOpTrace (runStatusOp c ctx method path ver want)) =
      some ((builtRequest ⟨c.token, c.baseUrl, ver⟩ method path [] none).url) := by
  rcases requestImpl_shape ⟨c.token, c.baseUrl, ver⟩ method path [] none
      decodeClientError c.transport h with
    ⟨msg, ht, heq⟩ | ⟨res, ht, h1, h2, heq⟩ | ⟨res, msg, ht, hst, hb, heq⟩
      | ⟨res, data, ht, hst, hb, heq⟩
  · unfold runStatusOp Client.request
    rw [heq]
    rfl
  · unfold runStatusOp Client.request
    rw [heq]
    dsimp only
    split <;> rfl
  · unfold runStatusOp Client.request
    rw [heq]
    rfl
  · unfold runStatusOp Client.request
    rw [heq]
    rfl

/-- C2: every bot operation's transport request URL is the client's base
address joined with `api/{version}/{relativePath}`, where the version
is supplied per call: the media-analysis operation addresses the beta
version `v2beta` while every other bot operation addresses the fixed
major version `v1`, and the two versions are distinct. -/
theorem botOperations_url_and_version (c : Client) :
    (requestUrlOf (opTrace (createBot c (some ⟨"https://test.com", "Test Bot"⟩))) =
      some (c.baseUrl ++ "/" ++ "api/v1/bot"))
    ∧ (requestUrlOf (opTrace (listBots c none)) =
      some (c.baseUrl ++ "/" ++ "api/v1/bot"))
    ∧ (requestUrlOf (opTrace (listChatMessages c "b1" none)) =
      some (c.baseUrl ++ "/" ++ "api/v1/bot/b1/chat-messages"))
    ∧ (requestUrlOf (opTrace (retrieveBot c "b1")) =
      some (c.baseUrl ++ "/" ++ "api/v1/bot/b1"))
    ∧ (requestUrlOf (opTrace (updateScheduledBot c "b1" none)) =
      some (c.baseUrl ++ "/" ++ "api/v1/bot/b1"))
    ∧ (requestUrlOf (opTrace (getBotLogs c "b1")) =
      some (c.baseUrl ++ "/" ++ "api/v1/bot/b1/logs"))
    ∧ (requestUrlOf (opTrace (outputAudio c "b1" none)) =
      some (c.baseUrl ++ "/" ++ "api/v1/bot/b1/output_audio"))
    ∧ (requestUrlOf (opTrace (outputMedia c "b1" none)) =
      some (c.baseUrl ++ "/" ++ "api/v1/bot/b1/output_media"))
    ∧ (requestUrlOf (opTrace (startScreenshare c "b1" none)) =
      some (c.baseUrl ++ "/" ++ "api/v1/bot/b1/output_screenshare"))
    ∧ (requestUrlOf (opTrace (outputVideo c "b1" none)) =
      some (c.baseUrl ++ "/" ++ "api/v1/bot/b1/output_video"))
    ∧ (requestUrlOf (opTrace (pauseRecording c "b1")) =
      some (c.baseUrl ++ "/" ++ "api/v1/bot/b1/pause_recording"))
    ∧ (requestUrlOf (opTrace (requestRecordingPermission c "b1")) =
      some (c.baseUrl ++ "/" ++ "api/v1/bot/b1/request_recording_permission"))
    ∧ (requestUrlOf (opTrace (resumeRecording c "b1")) =
      some (c.baseUrl ++ "/" ++ "api/v1/bot/b1/resume_recording"))
    ∧ (requestUrlOf (opTrace (sendChatMessage c "b1" none)) =
      some (c.baseUrl ++ "/" ++ "api/v1/bot/b1/send_chat_message"))
    ∧ (requestUrlOf (opTrace (getSpeakerTimeline c "b1" none)) =
      some (c.baseUrl ++ "/" ++ "api/v1/bot/b1/speaker_timeline"))
    ∧ (requestUrlOf (opTrace (startRecording c "b1" none)) =
      some (c.baseUrl ++ "/" ++ "api/v1/bot/b1/start_recording"))
    ∧ (requestUrlOf (opTrace (stopRecording c "b1")) =
      some (c.baseUrl ++ "/" ++ "api/v1/bot/b1/stop_recording"))
    ∧ (requestUrlOf (opTrace (getBotTranscript c "b1" none)) =
      some (c.baseUrl ++ "/" ++ "api/v1/bot/b1/transcript"))
    ∧ (requestUrlOf (opTrace (analyzeBotMedia c "b1" none)) =
      some (c.baseUrl ++ "/" ++ "api/v2beta/bot/b1/analyze"))
    ∧ (requestUrlOf (statusOpTrace (deleteScheduledBot c "b1")) =
      some (c.baseUrl ++ "/" ++ "api/v1/bot/b1"))
    ∧ (requestUrlOf (statusOpTrace (deleteBotMedia c "b1")) =
      some (c.baseUrl ++ "/" ++ "api/v1/bot/b1/delete_media"))
    ∧ (requestUrlOf (statusOpTrace (stopOutputAudio c "b1")) =
      some (c.baseUrl ++ "/" ++ "api/v1/bot/b1/output_audio"))
    ∧ (requestUrlOf (statusOpTrace (stopOutputMedia c "b1")) =
      some (c.baseUrl ++ "/" ++ "api/v1/bot/b1/output_media"))
    ∧ (requestUrlOf (statusOpTrace (stopScreenshare c "b1")) =
      some (c.baseUrl ++ "/" ++ "api/v1/bot/b1/output_screenshare"))
    ∧ (requestUrlOf (statusOpTrace (stopOutputVideo c "b1")) =
      some (c.baseUrl ++ "/" ++ "api/v1/bot/b1/output_video"))
    ∧ (apiVersionV2Beta ≠ apiVersionV1) := by
  refine ⟨?_, ?_, ?_, ?_, ?_, ?_, ?_, ?_, ?_, ?_, ?_, ?_, ?_, ?_, ?_, ?_, ?_, ?_, ?_, ?_, ?_, ?_, ?_, ?_, ?_, ?_⟩
  · have h := runJSONOp_requestUrl c "failed to create bot" "POST" "bot" []
        (some (CreateBotRequest.toJson ⟨"https://test.com", "Test Bot"⟩))
        apiVersionV1 false (by decide)
    rw [builtRequest_url] at h
    show requestUrlOf (opTrace (runJSONOp c "failed to create bot" "POST" "bot" []
      (some (CreateBotRequest.toJson ⟨"https://test.com", "Test Bot"⟩))
      apiVersionV1 false)) = _
    simpa [apiVersionV1, encodeQuery_nil] using h
  · have h := runJSONOp_requestUrl c "failed to list bots" "GET" "bot"
        [] none apiVersionV1 false (by decide)
    rw [builtRequest_url] at h
    unfold listBots
    simpa [apiVersionV1, encodeQuery_nil, buildQueryParams] using h
  · have h := runJSONOp_requestUrl c "failed to list chat messages" "GET" ("bot/" ++ "b1" ++ "/chat-messages")
        [] none apiVersionV1 false (by decide)
    rw [builtRequest_url] at h
    unfold listChatMessages
    simpa [apiVersionV1, encodeQuery_nil] using h
  · have h := runJSONOp_requestUrl c "failed to retrieve bot" "GET" ("bot/" ++ "b1")
        [] none apiVersionV1 false (by decide)
    rw [builtRequest_url] at h
    unfold retrieveBot
    simpa [apiVersionV1, encodeQuery_nil] using h
  · have h := runJSONOp_requestUrl c "failed to update scheduled bot" "PATCH" ("bot/" ++ "b1")
        [] none apiVersionV1 false (by decide)
    rw [builtRequest_url] at h
    unfold updateScheduledBot
    simpa [apiVersionV1, encodeQuery_nil] using h
  · have h := runJSONOp_requestUrl c "failed to get bot logs" "GET" ("bot/" ++ "b1" ++ "/logs")
        [] none apiVersionV1 true (by decide)
    rw [builtRequest_url] at h
    unfold getBotLogs
    simpa [apiVersionV1, encodeQuery_nil] using h
  · have h := runJSONOp_requestUrl c "failed to output audio" "POST" ("bot/" ++ "b1" ++ "/output_audio")
        [] none apiVersionV1 true (by decide)
    rw [builtRequest_url] at h
    unfold outputAudio
    simpa [apiVersionV1, encodeQuery_nil] using h
  · have h := runJSONOp_requestUrl c "failed to output media" "POST" ("bot/" ++ "b1" ++ "/output_media")
        [] none apiVersionV1 true (by decide)
    rw [builtRequest_url] at h
    unfold outputMedia
    simpa [apiVersionV1, encodeQuery_nil] using h
  · have h := runJSONOp_requestUrl c "failed to start screenshare" "POST" ("bot/" ++ "b1" ++ "/output_screenshare")
        [] none apiVersionV1 true (by decide)
    rw [builtRequest_url] at h
    unfold startScreenshare
    simpa [apiVersionV1, encodeQuery_nil] using h
  · have h := runJSONOp_requestUrl c "failed to output video" "POST" ("bot/" ++ "b1" ++ "/output_video")
        [] none apiVersionV1 true (by decide)
    rw [builtRequest_url] at h
    unfold outputVideo
    simpa [apiVersionV1, encodeQuery_nil] using h
  · have h := runJSONOp_requestUrl c "failed to pause recording" "POST" ("bot/" ++ "b1" ++ "/pause_recording")
        [] none apiVersionV1 true (by decide)
    rw [builtRequest_url] at h
    unfold pauseRecording
    simpa [apiVersionV1, encodeQuery_nil] using h
  · have h := runJSONOp_requestUrl c "failed to request recording permission" "POST" ("bot/" ++ "b1" ++ "/request_recording_permission")
        [] none apiVersionV1 true (by decide)
    rw [builtRequest_url] at h
    unfold requestRecordingPermission
    simpa [apiVersionV1, encodeQuery_nil] using h
  · have h := runJSONOp_requestUrl c "failed to resume recording" "POST" ("bot/" ++ "b1" ++ "/resume_recording")
        [] none apiVersionV1 true (by decide)
    rw [builtRequest_url] at h
    unfold resumeRecording
    simpa [apiVersionV1, encodeQuery_nil] using h
  · have h := runJSONOp_requestUrl c "failed to send chat message" "POST" ("bot/" ++ "b1" ++ "/send_chat_message")
        [] none apiVersionV1 true (by decide)
    rw [builtRequest_url] at h
    unfold sendChatMessage
    simpa [apiVersionV1, encodeQuery_nil] using h
  · have h := runJSONOp_requestUrl c "failed to get speaker timeline" "GET" ("bot/" ++ "b1" ++ "/speaker_timeline")
        [] none apiVersionV1 true (by decide)
    rw [builtRequest_url] at h
    unfold getSpeakerTimeline
    simpa [apiVersionV1, encodeQuery_nil] using h
  · have h := runJSONOp_requestUrl c "failed to start recording" "POST" ("bot/" ++ "b1" ++ "/start_recording")
        [] none apiVersionV1 true (by decide)
    rw [builtRequest_url] at h
    unfold startRecording
    simpa [apiVersionV1, encodeQuery_nil] using h
  · have h := runJSONOp_requestUrl c "failed to stop recording" "POST" ("bot/" ++ "b1" ++ "/stop_recording")
        [] none apiVersionV1 true (by decide)
    rw [builtRequest_url] at h
    unfold stopRecording
    simpa [apiVersionV1, encodeQuery_nil] using h
  · have h := runJSONOp_requestUrl c "failed to get bot transcript" "GET" ("bot/" ++ "b1" ++ "/transcript")
        [] none apiVersionV1 true (by decide)
    rw [builtRequest_url] at h
    unfold getBotTranscript
    simpa [apiVersionV1, encodeQuery_nil] using h
  · have h := runJSONOp_requestUrl c "failed to analyze bot media" "POST" ("bot/" ++ "b1" ++ "/analyze")
        [] none apiVersionV2Beta false (by decide)
    rw [builtRequest_url] at h
    unfold analyzeBotMedia
    simpa [apiVersionV2Beta, encodeQuery_nil] using h
  · have h := runStatusOp_requestUrl c "failed to delete scheduled bot" "DELETE" ("bot/" ++ "b1")
        apiVersionV1 204 (by decide)
    rw [builtRequest_url] at h
    unfold deleteScheduledBot
    simpa [apiVersionV1, encodeQuery_nil] using h
  · have h := runStatusOp_requestUrl c "failed to delete bot media" "POST" ("bot/" ++ "b1" ++ "/delete_media")
        apiVersionV1 204 (by decide)
    rw [builtRequest_url] at h
    unfold deleteBotMedia
    simpa [apiVersionV1, encodeQuery_nil] using h
  · have h := runStatusOp_requestUrl c "failed to stop output audio" "DELETE" ("bot/" ++ "b1" ++ "/output_audio")
        apiVersionV1 200 (by decide)
    rw [builtRequest_url] at h
    unfold stopOutputAudio
    simpa [apiVersionV1, encodeQuery_nil] using h
  · have h := runStatusOp_requestUrl c "failed to stop output media" "DELETE" ("bot/" ++ "b1" ++ "/output_media")
        apiVersionV1 200 (by decide)
    rw [builtRequest_url] at h
    unfold stopOutputMedia
    simpa [apiVersionV1, encodeQuery_nil] using h
  · have h := runStatusOp_requestUrl c "failed to stop screenshare" "DELETE" ("bot/" ++ "b1" ++ "/output_screenshare")
        apiVersionV1 200 (by decide)
    rw [builtRequest_url] at h
    unfold stopScreenshare
    simpa [apiVersionV1, encodeQuery_nil] using h
  · have h := runStatusOp_requestUrl c "failed to stop output video" "DELETE" ("bot/" ++ "b1" ++ "/output_video")
        apiVersionV1 200 (by decide)
    rw [builtRequest_url] at h
    unfold stopOutputVideo
    simpa [apiVersionV1, encodeQuery_nil] using h
  · decide

/-- Outcome of any `runJSONOp` wrapper against the 400 transport double:
no success value, and the pipeline's decoded `ApiError` wrapped once with
the wrapper's context string. -/
theorem runJSONOp_t400 (tok base ctx method path : String)
    (qp : List (String × List String)) (body : Option Json) (ver : String)
    (chk : Bool) (h : urlParseOk ("api/" ++ ver ++ "/" ++ path) = true) :
    runJSONOp ⟨tok, base, t400⟩ ctx method path qp body ver chk =
      .ok (none, some (.wrapped ctx (.apiError 40001 "bad request")),
        [.transportCall (builtRequest ⟨tok, base, ver⟩ method path qp body), .readBody]) := by
  unfold runJSONOp Client.request
  dsimp only [requestImpl]
  rw [if_neg (by simp [h])]
  rfl

/-- Outcome of any `runStatusOp` wrapper against the 400 transport
double. -/
theorem runStatusOp_t400 (tok base ctx method path : String) (ver : String)
    (want : Nat) (h : urlParseOk ("api/" ++ ver ++ "/" ++ path) = true) :
    runStatusOp ⟨tok, base, t400⟩ ctx method path ver want =
      .ok (some (.wrapped ctx (.apiError 40001 "bad request")),
        [.transportCall (builtRequest ⟨tok, base, ver⟩ method path [] none), .readBody]) := by
  unfold runStatusOp Client.request
  dsimp only [requestImpl]
  rw [if_neg (by simp [h])]
  rfl

/-- The only request the pipeline's trace ever records is the built
request. -/
theorem mem_trace_builtRequest (c : ClientCfg) (method urlStr : String)
    (qp : List (String × List String)) (body : Option Json)
    (dec : RawBody → GoErr) (t : Transport) (req : HttpRequest)
    (hmem : Effect.transportCall req ∈ (requestImpl c method urlStr qp body dec t).2.2) :
    req = builtRequest c method urlStr qp body := by
  by_cases h : urlParseOk ("api/" ++ c.apiVersion ++ "/" ++ urlStr) = true
  · rcases requestImpl_shape c method urlStr qp body dec t h with
      ⟨msg, ht, heq⟩ | ⟨res, ht, h1, h2, heq⟩ | ⟨res, msg, ht, hst, hb, heq⟩
        | ⟨res, data, ht, hst, hb, heq⟩ <;>
      · rw [heq] at hmem
        simp only [List.mem_cons, List.mem_singleton, List.not_mem_nil, or_false] at hmem
        first
          | (cases hmem; rfl)
          | (rcases hmem with hmem | hmem
             · cases hmem; rfl
             · exact absurd hmem (by simp))
  · unfold requestImpl at hmem
    rw [if_pos (by simpa using h)] at hmem
    simp at hmem

/-! ## C3 -/

/-- C3: every request the pipeline hands to the transport — for every
configuration, verb, path, query-parameter map and body — carries
exactly one `Authorization` header, whose value is exactly
`"Token "` followed by the client's credential token, and exactly one
`Content-Type` header whenever a body is present. -/
theorem request_headers_auth_and_content_type (c : ClientCfg)
    (method urlStr : String) (qp : List (String × List String))
    (body : Option Json) (dec : RawBody → GoErr) (t : Transport)
    (req : HttpRequest)
    (hmem : Effect.transportCall req ∈ (requestImpl c method urlStr qp body dec t).2.2) :
    (req.headers.filter fun p => p.1 == "Authorization") =
        [("Authorization", "Token " ++ c.token)]
    ∧ ((req.body).isSome →
        (req.headers.filter fun p => p.1 == "Content-Type") =
          [("Content-Type", "application/json")]) := by
  have hreq := mem_trace_builtRequest c method urlStr qp body dec t req hmem
  subst hreq
  rw [builtRequest_headers]
  constructor
  · simp [List.filter]
  · intro _
    simp [List.filter]

/-- Witness for C3 at a concrete call: list-bots against the 200 double
from the default us-east-1 configuration. -/
theorem request_headers_auth_and_content_type_witness :
    ((builtRequest cfg0 "POST" "bot" [] (some (Json.obj []))).headers.filter
        fun p => p.1 == "Authorization") =
          [("Authorization", "Token " ++ cfg0.token)]
    ∧ (((builtRequest cfg0 "POST" "bot" [] (some (Json.obj []))).body).isSome →
        ((builtRequest cfg0 "POST" "bot" [] (some (Json.obj []))).headers.filter
          fun p => p.1 == "Content-Type") =
            [("Content-Type", "application/json")]) :=
  request_headers_auth_and_content_type cfg0 "POST" "bot" []
    (some (Json.obj [])) decodeClientError t200
    (builtRequest cfg0 "POST" "bot" [] (some (Json.obj [])))
    (by rw [show (requestImpl cfg0 "POST" "bot" [] (some (Json.obj []))
          decodeClientError t200).2.2 =
        [Effect.transportCall (builtRequest cfg0 "POST" "bot" []
          (some (Json.obj [])))] from rfl]
        exact List.mem_singleton.mpr rfl)

/-! ## C4 -/

/-- C4: whenever the raw bytes cannot be unmarshalled into the
structured error shape `{code, detail}`, the error decoder returns the
decode error wrapping the parse failure — never an `ApiError` value
(and in particular never the zero-value `ApiError`) that would mask the
real failure. -/
theorem decodeClientError_wraps_parse_failure (b : RawBody) (msg : String)
    (h : unmarshalGoError b = .error msg) :
    decodeClientError b =
        .wrapped "failed to decode error response" (.simple msg)
    ∧ ∀ code detail, decodeClientError b ≠ .apiError code detail := by
  unfold decodeClientError
  rw [h]
  exact ⟨rfl, fun code detail hc => GoErr.noConfusion hc⟩

/-- Witness for C4 on malformed bytes. -/
theorem decodeClientError_wraps_parse_failure_witness :
    decodeClientError (.malformed "unexpected end of JSON input") =
        .wrapped "failed to decode error response"
          (.simple "unexpected end of JSON input")
    ∧ ∀ code detail,
        decodeClientError (.malformed "unexpected end of JSON input") ≠
          .apiError code detail :=
  decodeClientError_wraps_parse_failure
    (.malformed "unexpected end of JSON input")
    "unexpected end of JSON input" rfl

/-! ## C5 -/

/-- C5 (code bug): on the error path the pipeline does read the full
error body eagerly and hand the bytes to the decoder, but it never
closes the response body stream: at the concrete 400 response the
returned error is the decoded `ApiError` and the trace records the
transport call and the body read but no close.  The Go error path
(`client.go:150-158`) contains no `res.Body.Close()`. -/
theorem requestImpl_error_path_never_closes_body :
    requestImpl cfg0 "GET" "bot" [] none decodeClientError t400 =
      (none, some (.apiError 40001 "bad request"),
        [.transportCall (builtRequest cfg0 "GET" "bot" [] none), .readBody])
    ∧ Effect.readBody ∈
        (requestImpl cfg0 "GET" "bot" [] none decodeClientError t400).2.2
    ∧ Effect.closeBody ∉
        (requestImpl cfg0 "GET" "bot" [] none decodeClientError t400).2.2 := by
  refine ⟨rfl, ?_, ?_⟩
  · rw [show (requestImpl cfg0 "GET" "bot" [] none decodeClientError t400).2.2 =
      [Effect.transportCall (builtRequest cfg0 "GET" "bot" [] none),
        Effect.readBody] from rfl]
    simp
  · rw [show (requestImpl cfg0 "GET" "bot" [] none decodeClientError t400).2.2 =
      [Effect.transportCall (builtRequest cfg0 "GET" "bot" [] none),
        Effect.readBody] from rfl]
    simp

/-! ## C6 -/

/-- A client whose transport is the 400 double. -/
def client400 (tok base : String) : Client := ⟨tok, base, t400⟩

/-- The error of a wrapper returning only `error`. -/
def statusOpErr : PanicOr (Option GoErr × List Effect) → Option GoErr
  | .ok (e, _) => e
  | .panicked _ => none

/-- C6 counterexample: against the 400 double with body
`{"code": 40001, "detail": "bad request"}`, `ListBots` returns an error
whose reported message is `"failed to list bots: bad request"` — not
`"bad request"` as the claim states (each wrapper adds its context
prefix before returning the pipeline's error). -/
theorem listBots_error_message_is_wrapped_not_bare :
    opErr (listBots (client400 "some_token" "https://us-east-1.recall.ai") none) =
        some (.wrapped "failed to list bots" (.apiError 40001 "bad request"))
    ∧ GoErr.message
        (.wrapped "failed to list bots" (.apiError 40001 "bad request")) =
          "failed to list bots: bad request"
    ∧ "failed to list bots: bad request" ≠ "bad request" := by
  refine ⟨?_, rfl, by decide⟩
  unfold listBots client400
  rw [runJSONOp_t400 _ _ _ _ _ _ _ _ _ (by decide)]
  rfl

/-- C6 (amended): for every operation, when the transport returns
status 400 with body `{"code": 40001, "detail": "bad request"}`, the
operation returns no success value and a non-nil error that wraps the
decoded `ApiError` with the operation's context string; the root cause
of that error (not the operation's own `Error()` string, which carries
the context prefix) reports the message `"bad request"`. -/
theorem operations_on_400_wrap_bad_request (tok base : String) :
    (opVal (createBot (client400 tok base) (some ⟨"https://test.com", "Test Bot"⟩)) = none
      ∧ opErr (createBot (client400 tok base) (some ⟨"https://test.com", "Test Bot"⟩)) =
          some (.wrapped "failed to create bot" (.apiError 40001 "bad request")))
    ∧ (opVal (listBots (client400 tok base) none) = none
      ∧ opErr (listBots (client400 tok base) none) =
          some (.wrapped "failed to list bots" (.apiError 40001 "bad request")))
    ∧ (opVal (listChatMessages (client400 tok base) "b1" none) = none
      ∧ opErr (listChatMessages (client400 tok base) "b1" none) =
          some (.wrapped "failed to list chat messages" (.apiError 40001 "bad request")))
    ∧ (opVal (retrieveBot (client400 tok base) "b1") = none
      ∧ opErr (retrieveBot (client400 tok base) "b1") =
          some (.wrapped "failed to retrieve bot" (.apiError 40001 "bad request")))
    ∧ (opVal (updateScheduledBot (client400 tok base) "b1" none) = none
      ∧ opErr (updateScheduledBot (client400 tok base) "b1" none) =
          some (.wrapped "failed to update scheduled bot" (.apiError 40001 "bad request")))
    ∧ (opVal (getBotLogs (client400 tok base) "b1") = none
      ∧ opErr (getBotLogs (client400 tok base) "b1") =
          some (.wrapped "failed to get bot logs" (.apiError 40001 "bad request")))
    ∧ (opVal (outputAudio (client400 tok base) "b1" none) = none
      ∧ opErr (outputAudio (client400 tok base) "b1" none) =
          some (.wrapped "failed to output audio" (.apiError 40001 "bad request")))
    ∧ (opVal (outputMedia (client400 tok base) "b1" none) = none
      ∧ opErr (outputMedia (client400 tok base) "b1" none) =
          some (.wrapped "failed to output media" (.apiError 40001 "bad request")))
    ∧ (opVal (startScreenshare (client400 tok base) "b1" none) = none
      ∧ opErr (startScreenshare (client400 tok base) "b1" none) =
          some (.wrapped "failed to start screenshare" (.apiError 40001 "bad request")))
    ∧ (opVal (outputVideo (client400 tok base) "b1" none) = none
      ∧ opErr (outputVideo (client400 tok base) "b1" none) =
          some (.wrapped "failed to output video" (.apiError 40001 "bad request")))
    ∧ (opVal (pauseRecording (client400 tok base) "b1") = none
      ∧ opErr (pauseRecording (client400 tok base) "b1") =
          some (.wrapped "failed to pause recording" (.apiError 40001 "bad request")))
    ∧ (opVal (requestRecordingPermission (client400 tok base) "b1") = none
      ∧ opErr (requestRecordingPermission (client400 tok base) "b1") =
          some (.wrapped "failed to request recording permission" (.apiError 40001 "bad request")))
    ∧ (opVal (resumeRecording (client400 tok base) "b1") = none
      ∧ opErr (resumeRecording (client400 tok base) "b1") =
          some (.wrapped "failed to resume recording" (.apiError 40001 "bad request")))
    ∧ (opVal (sendChatMessage (client400 tok base) "b1" none) = none
      ∧ opErr (sendChatMessage (client400 tok base) "b1" none) =
          some (.wrapped "failed to send chat message" (.apiError 40001 "bad request")))
    ∧ (opVal (getSpeakerTimeline (client400 tok base) "b1" none) = none
      ∧ opErr (getSpeakerTimeline (client400 tok base) "b1" none) =
          some (.wrapped "failed to get speaker timeline" (.apiError 40001 "bad request")))
    ∧ (opVal (startRecording (client400 tok base) "b1" none) = none
      ∧ opErr (startRecording (client400 tok base) "b1" none) =
          some (.wrapped "failed to start recording" (.apiError 40001 "bad request")))
    ∧ (opVal (stopRecording (client400 tok base) "b1") = none
      ∧ opErr (stopRecording (client400 tok base) "b1") =
          some (.wrapped "failed to stop recording" (.apiError 40001 "bad request")))
    ∧ (opVal (getBotTranscript (client400 tok base) "b1" none) = none
      ∧ opErr (getBotTranscript (client400 tok base) "b1" none) =
          some (.wrapped "failed to get bot transcript" (.apiError 40001 "bad request")))
    ∧ (opVal (analyzeBotMedia (client400 tok base) "b1" none) = none
      ∧ opErr (analyzeBotMedia (client400 tok base) "b1" none) =
          some (.wrapped "failed to analyze bot media" (.apiError 40001 "bad request")))
    ∧ (statusOpErr (deleteScheduledBot (client400 tok base) "b1") =
      some (.wrapped "failed to delete scheduled bot" (.apiError 40001 "bad request")))
    ∧ (statusOpErr (deleteBotMedia (client400 tok base) "b1") =
      some (.wrapped "failed to delete bot media" (.apiError 40001 "bad request")))
    ∧ (statusOpErr (stopOutputAudio (client400 tok base) "b1") =
      some (.wrapped "failed to stop output audio" (.apiError 40001 "bad request")))
    ∧ (statusOpErr (stopOutputMedia (client400 tok base) "b1") =
      some (.wrapped "failed to stop output media" (.apiError 40001 "bad request")))
    ∧ (statusOpErr (stopScreenshare (client400 tok base) "b1") =
      some (.wrapped "failed to stop screenshare" (.apiError 40001 "bad request")))
    ∧ (statusOpErr (stopOutputVideo (client400 tok base) "b1") =
      some (.wrapped "failed to stop output video" (.apiError 40001 "bad request")))
    ∧ (∀ ctx, GoErr.message (GoErr.rootCause (.wrapped ctx (.apiError 40001 "bad request"))) = "bad request") := by
  refine ⟨?_, ?_, ?_, ?_, ?_, ?_, ?_, ?_, ?_, ?_, ?_, ?_, ?_, ?_, ?_, ?_, ?_, ?_, ?_, ?_, ?_, ?_, ?_, ?_, ?_, ?_⟩
  · refine ⟨?_, ?_⟩ <;>
      · rw [show createBot (client400 tok base) (some ⟨"https://test.com", "Test Bot"⟩) =
            runJSONOp (client400 tok base) "failed to create bot" "POST" "bot" []
              (some (CreateBotRequest.toJson ⟨"https://test.com", "Test Bot"⟩))
              apiVersionV1 false from rfl]
        unfold client400
        rw [runJSONOp_t400 tok base _ _ _ _ _ _ _ (by decide)]
        rfl
  · unfold listBots client400
    rw [runJSONOp_t400 tok base _ _ _ _ _ _ _ (by decide)]
    exact ⟨rfl, rfl⟩
  · unfold listChatMessages client400
    rw [runJSONOp_t400 tok base _ _ _ _ _ _ _ (by decide)]
    exact ⟨rfl, rfl⟩
  · unfold retrieveBot client400
    rw [runJSONOp_t400 tok base _ _ _ _ _ _ _ (by decide)]
    exact ⟨rfl, rfl⟩
  · unfold updateScheduledBot client400
    rw [runJSONOp_t400 tok base _ _ _ _ _ _ _ (by decide)]
    exact ⟨rfl, rfl⟩
  · unfold getBotLogs client400
    rw [runJSONOp_t400 tok base _ _ _ _ _ _ _ (by decide)]
    exact ⟨rfl, rfl⟩
  · unfold outputAudio client400
    rw [runJSONOp_t400 tok base _ _ _ _ _ _ _ (by decide)]
    exact ⟨rfl, rfl⟩
  · unfold outputMedia client400
    rw [runJSONOp_t400 tok base _ _ _ _ _ _ _ (by decide)]
    exact ⟨rfl, rfl⟩
  · unfold startScreenshare client400
    rw [runJSONOp_t400 tok base _ _ _ _ _ _ _ (by decide)]
    exact ⟨rfl, rfl⟩
  · unfold outputVideo client400
    rw [runJSONOp_t400 tok base _ _ _ _ _ _ _ (by decide)]
    exact ⟨rfl, rfl⟩
  · unfold pauseRecording client400
    rw [runJSONOp_t400 tok base _ _ _ _ _ _ _ (by decide)]
    exact ⟨rfl, rfl⟩
  · unfold requestRecordingPermission client400
    rw [runJSONOp_t400 tok base _ _ _ _ _ _ _ (by decide)]
    exact ⟨rfl, rfl⟩
  · unfold resumeRecording client400
    rw [runJSONOp_t400 tok base _ _ _ _ _ _ _ (by decide)]
    exact ⟨rfl, rfl⟩
  · unfold sendChatMessage client400
    rw [runJSONOp_t400 tok base _ _ _ _ _ _ _ (by decide)]
    exact ⟨rfl, rfl⟩
  · unfold getSpeakerTimeline client400
    rw [runJSONOp_t400 tok base _ _ _ _ _ _ _ (by decide)]
    exact ⟨rfl, rfl⟩
  · unfold startRecording client400
    rw [runJSONOp_t400 tok base _ _ _ _ _ _ _ (by decide)]
    exact ⟨rfl, rfl⟩
  · unfold stopRecording client400
    rw [runJSONOp_t400 tok base _ _ _ _ _ _ _ (by decide)]
    exact ⟨rfl, rfl⟩
  · unfold getBotTranscript client400
    rw [runJSONOp_t400 tok base _ _ _ _ _ _ _ (by decide)]
    exact ⟨rfl, rfl⟩
  · unfold analyzeBotMedia client400
    rw [runJSONOp_t400 tok base _ _ _ _ _ _ _ (by decide)]
    exact ⟨rfl, rfl⟩
  · unfold deleteScheduledBot client400
    rw [runStatusOp_t400 tok base _ _ _ _ _ (by decide)]
    rfl
  · unfold deleteBotMedia client400
    rw [runStatusOp_t400 tok base _ _ _ _ _ (by decide)]
    rfl
  · unfold stopOutputAudio client400
    rw [runStatusOp_t400 tok base _ _ _ _ _ (by decide)]
    rfl
  · unfold stopOutputMedia client400
    rw [runStatusOp_t400 tok base _ _ _ _ _ (by decide)]
    rfl
  · unfold stopScreenshare client400
    rw [runStatusOp_t400 tok base _ _ _ _ _ (by decide)]
    rfl
  · unfold stopOutputVideo client400
    rw [runStatusOp_t400 tok base _ _ _ _ _ (by decide)]
    rfl
  · intro ctx
    rfl

/-! ## C7 -/

/-- Counting a `(key, value)` pair among one parameter's emitted pairs:
the value's multiplicity when the key matches, zero otherwise. -/
theorem count_pairs_map (key k v : String) (vs : List String) :
    ((vs.map fun w => (key, w)).count (k, v)) =
      if key = k then vs.count v else 0 := by
  induction vs with
  | nil => simp
  | cons x xs ih =>
      by_cases hk : key = k
      · subst hk
        by_cases hv : x = v
        · subst hv
          simp [List.count_cons, ih]
        · simp [List.count_cons, ih, hv, Prod.ext_iff]
      · simp [List.count_cons, ih, hk, Prod.ext_iff]

/-- Pairs emitted for parameters whose key differs from `k` contribute
nothing to the count of `(k, v)`. -/
theorem count_flatMap_pairs_zero (k v : String)
    (l : List (String × List String)) (h : k ∉ l.map Prod.fst) :
    ((l.flatMap fun p => p.2.map fun w => (p.1, w)).count (k, v)) = 0 := by
  induction l with
  | nil => simp
  | cons p rest ih =>
      simp only [List.map_cons, List.mem_cons, not_or] at h
      rw [List.flatMap_cons, List.count_append, count_pairs_map,
        if_neg (fun hh => h.1 hh.symm), ih h.2]

/-- With no duplicate keys, the multiplicity of `(k, v)` among all
emitted pairs is exactly the multiplicity of `v` in the value list of
the entry for `k`. -/
theorem count_flatMap_pairs (k v : String) (vs : List String)
    (l : List (String × List String)) (hnd : (l.map Prod.fst).Nodup)
    (hmem : (k, vs) ∈ l) :
    ((l.flatMap fun p => p.2.map fun w => (p.1, w)).count (k, v)) =
      vs.count v := by
  induction l with
  | nil => simp at hmem
  | cons p rest ih =>
      simp only [List.map_cons, List.nodup_cons] at hnd
      rw [List.flatMap_cons, List.count_append]
      rcases List.mem_cons.mp hmem with hp | hp
      · cases hp
        rw [count_pairs_map, if_pos rfl,
          count_flatMap_pairs_zero k v rest hnd.1, Nat.add_zero]
      · have hk : p.1 ≠ k := by
          intro hh
          exact hnd.1 (hh ▸ List.mem_map.mpr ⟨(k, vs), hp, rfl⟩)
        rw [count_pairs_map, if_neg hk, ih hnd.2 hp, Nat.zero_add]

/-- C7: query encoding preserves multi-value semantics.  (1) For every
parameter map without duplicate keys, a key mapped to a value list
contributes one `key=value` pair per value: the multiplicity of the
pair `(k, v)` among the encoder's emitted pairs equals the multiplicity
of `v` in `k`'s value list (two equal status values would appear twice,
never comma-joined).  (2) The empty parameter map encodes to the empty
query string and contributes nothing to the request URL.  (3) The
list-bots filter with two status values encodes to two repeated
`status=` occurrences. -/
theorem queryEncoding_multivalue_and_empty :
    (∀ (qp : List (String × List String)) (k : String) (vs : List String)
        (v : String), (qp.map Prod.fst).Nodup → (k, vs) ∈ qp →
        (queryPairs qp).count (k, v) = vs.count v)
    ∧ encodeQuery [] = ""
    ∧ (∀ (c : ClientCfg) (method urlStr : String) (body : Option Json),
        (builtRequest c method urlStr [] body).url =
          c.baseUrl ++ "/" ++ ("api/" ++ c.apiVersion ++ "/" ++ urlStr))
    ∧ encodeQuery (buildQueryParams
          (some { status := ["in_call_recording", "done"] })) =
        "status=in_call_recording&status=done" := by
  refine ⟨?_, rfl, ?_, by decide⟩
  · intro qp k vs v hnd hmem
    unfold queryPairs sortByKey
    have hperm : List.Perm (qp.insertionSort fun p q => p.1 ≤ q.1) qp :=
      List.perm_insertionSort _ qp
    rw [List.count_eq_countP,
      List.Perm.countP_eq (· == (k, v))
        (hperm.flatMap_right fun p => p.2.map fun w => (p.1, w)),
      ← List.count_eq_countP]
    exact count_flatMap_pairs k v vs qp hnd hmem
  · intro c method urlStr body
    rw [builtRequest_url, encodeQuery_nil]
    simp

/-- Witness for C7's universally quantified part at a concrete map:
`status` mapped to two values yields each pair once, and a repeated
value would be counted twice. -/
theorem queryEncoding_multivalue_and_empty_witness :
    (queryPairs [("status", ["in_call_recording", "done"])]).count
        ("status", "done") = ["in_call_recording", "done"].count "done" :=
  queryEncoding_multivalue_and_empty.1
    [("status", ["in_call_recording", "done"])] "status"
    ["in_call_recording", "done"] "done" (by simp) (by simp)

/-! ## C8 -/

/-- C8: a `CreateBot` call whose request has an empty meeting URL fails
locally: it returns no bot, an error wrapping the missing-required-field
failure (`invalid request: meeting URL is required`), and an empty
effect trace — the transport is never invoked. -/
theorem createBot_empty_meetingURL_fails_before_transport (c : Client)
    (req : CreateBotRequest) (h : req.meetingURL = "") :
    createBot c (some req) =
      .ok (none, some (.wrapped "invalid request"
        (.simple "meeting URL is required")), [])
    ∧ ∀ r, Effect.transportCall r ∉ opTrace (createBot c (some req)) := by
  have hv : req.validate = some (.simple "meeting URL is required") := by
    unfold CreateBotRequest.validate
    rw [if_pos h]
  have hstep : createBot c (some req) =
      (match req.validate with
        | some err => PanicOr.ok (none, some (.wrapped "invalid request" err), [])
        | none => runJSONOp c "failed to create bot" "POST" "bot" []
            (some req.toJson) apiVersionV1 false) := rfl
  constructor
  · rw [hstep, hv]
  · intro r
    rw [hstep, hv]
    simp [opTrace]

/-- Witness for C8 at an empty meeting URL. -/
theorem createBot_empty_meetingURL_fails_before_transport_witness :
    createBot (client400 "some_token" "https://us-east-1.recall.ai")
        (some ⟨"", "Test Bot"⟩) =
      .ok (none, some (.wrapped "invalid request"
        (.simple "meeting URL is required")), [])
    ∧ ∀ r, Effect.transportCall r ∉
        opTrace (createBot (client400 "some_token" "https://us-east-1.recall.ai")
          (some ⟨"", "Test Bot"⟩)) :=
  createBot_empty_meetingURL_fails_before_transport
    (client400 "some_token" "https://us-east-1.recall.ai")
    ⟨"", "Test Bot"⟩ rfl

/-! ## C10 -/

/-- C10: `CreateBot` treats the bot name as a second required field: a
request with a non-empty meeting URL but an empty bot name fails local
validation with `invalid request: bot name is required`, with an empty
effect trace — the transport is never invoked (even though the field is
documented as defaulting to "Meeting Notetaker" when omitted). -/
theorem createBot_empty_botName_fails_before_transport (c : Client)
    (req : CreateBotRequest) (hurl : req.meetingURL ≠ "")
    (hname : req.botName = "") :
    createBot c (some req) =
      .ok (none, some (.wrapped "invalid request"
        (.simple "bot name is required")), [])
    ∧ ∀ r, Effect.transportCall r ∉ opTrace (createBot c (some req)) := by
  have hv : req.validate = some (.simple "bot name is required") := by
    unfold CreateBotRequest.validate
    rw [if_neg hurl, if_pos hname]
  have hstep : createBot c (some req) =
      (match req.validate with
        | some err => PanicOr.ok (none, some (.wrapped "invalid request" err), [])
        | none => runJSONOp c "failed to create bot" "POST" "bot" []
            (some req.toJson) apiVersionV1 false) := rfl
  constructor
  · rw [hstep, hv]
  · intro r
    rw [hstep, hv]
    simp [opTrace]

/-- Witness for C10 at a non-empty meeting URL and empty bot name. -/
theorem createBot_empty_botName_fails_before_transport_witness :
    createBot (client400 "some_token" "https://us-east-1.recall.ai")
        (some ⟨"https://test.com", ""⟩) =
      .ok (none, some (.wrapped "invalid request"
        (.simple "bot name is required")), [])
    ∧ ∀ r, Effect.transportCall r ∉
        opTrace (createBot (client400 "some_token" "https://us-east-1.recall.ai")
          (some ⟨"https://test.com", ""⟩)) :=
  createBot_empty_botName_fails_before_transport
    (client400 "some_token" "https://us-east-1.recall.ai")
    ⟨"https://test.com", ""⟩ (by decide) rfl

/-! ## C9 -/

/-- The pipeline never returns a nil response together with a nil
error. -/
theorem requestImpl_not_none_none (c : ClientCfg) (method urlStr : String)
    (qp : List (String × List String)) (body : Option Json)
    (dec : RawBody → GoErr) (t : Transport) :
    ¬ ((requestImpl c method urlStr qp body dec t).1 = none
       ∧ (requestImpl c method urlStr qp body dec t).2.1 = none) := by
  dsimp only [requestImpl]
  split
  · simp
  · split
    · simp
    · split
      · split <;> simp
      · simp

/-- A JSON-decoding wrapper never panics. -/
theorem runJSONOp_isOk (c : Client) (ctx method path : String)
    (qp : List (String × List String)) (body : Option Json) (ver : String)
    (chk : Bool) :
    (runJSONOp c ctx method path qp body ver chk).isOk = true := by
  have hnn := requestImpl_not_none_none ⟨c.token, c.baseUrl, ver⟩ method path
    qp body decodeClientError c.transport
  unfold runJSONOp
  rcases h : c.request method path qp body ver with ⟨r, e, tr⟩
  match r, e with
  | none, some err => rfl
  | some res, some err => rfl
  | some res, none =>
      dsimp only
      split
      · rfl
      · cases res.body with
        | error m => rfl
        | ok rb => cases rb <;> rfl
  | none, none =>
      exfalso
      apply hnn
      unfold Client.request at h
      rw [h]
      exact ⟨rfl, rfl⟩

/-- A status-checking wrapper never panics. -/
theorem runStatusOp_isOk (c : Client) (ctx method path : String)
    (ver : String) (want : Nat) :
    (runStatusOp c ctx method path ver want).isOk = true := by
  have hnn := requestImpl_not_none_none ⟨c.token, c.baseUrl, ver⟩ method path
    [] none decodeClientError c.transport
  unfold runStatusOp
  rcases h : c.request method path [] none ver with ⟨r, e, tr⟩
  match r, e with
  | none, some err => rfl
  | some res, some err => rfl
  | some res, none =>
      dsimp only
      split <;> rfl
  | none, none =>
      exfalso
      apply hnn
      unfold Client.request at h
      rw [h]
      exact ⟨rfl, rfl⟩

/-- Every enumerated region's address template resolves. -/
theorem setBaseURL_ok (r : Region) : setBaseURL r = .ok r.baseURL := by
  cases r <;> rfl

/-- Applying configuration options never panics: `WithHTTPClient` always
succeeds and `WithRegion` re-resolves an enumerated (hence parseable)
address. -/
theorem applyOptions_isOk (opts : List ClientOption) :
    ∀ c : Client, (applyOptions c opts).isOk = true := by
  induction opts with
  | nil => intro c; rfl
  | cons opt rest ih =>
      intro c
      unfold applyOptions
      cases opt with
      | withHTTPClient t => exact ih _
      | withRegion r =>
          dsimp only [applyOption]
          rw [setBaseURL_ok r]
          exact ih _

/-- C9 counterexample: `CreateBot` called with a nil request pointer
panics (the Go `request.Validate()` dereferences the nil pointer), so
"every input including a nil request body pointer" does not hold as
stated. -/
theorem createBot_nil_request_panics :
    createBot (client400 "some_token" "https://us-east-1.recall.ai") none =
      .panicked nilDerefMsg := rfl

/-- C9 (amended): for every operation, every non-nil request pointer and
every transport outcome, expected failure modes are reported as returned
error values and never panic — the pipeline itself handles a nil body
pointer — and client construction never aborts, since every enumerated
region's address resolves; the sole exception to "no panics" is
`CreateBot` dereferencing a nil request pointer. -/
theorem operations_never_panic_construction_never_aborts :
    (∀ (c : Client) (req : CreateBotRequest), (createBot c (some req)).isOk = true)
    ∧ (∀ (c : Client) (params : Option ListBotsParams), (listBots c params).isOk = true)
    ∧ (∀ (c : Client) (botID : String) (params : Option ListChatMessagesParams), (listChatMessages c botID params).isOk = true)
    ∧ (∀ (c : Client) (botID : String), (retrieveBot c botID).isOk = true)
    ∧ (∀ (c : Client) (botID : String) (request : Option Json), (updateScheduledBot c botID request).isOk = true)
    ∧ (∀ (c : Client) (botID : String), (getBotLogs c botID).isOk = true)
    ∧ (∀ (c : Client) (botID : String) (request : Option Json), (outputAudio c botID request).isOk = true)
    ∧ (∀ (c : Client) (botID : String) (request : Option Json), (outputMedia c botID request).isOk = true)
    ∧ (∀ (c : Client) (botID : String) (request : Option Json), (startScreenshare c botID request).isOk = true)
    ∧ (∀ (c : Client) (botID : String) (request : Option Json), (outputVideo c botID request).isOk = true)
    ∧ (∀ (c : Client) (botID : String), (pauseRecording c botID).isOk = true)
    ∧ (∀ (c : Client) (botID : String), (requestRecordingPermission c botID).isOk = true)
    ∧ (∀ (c : Client) (botID : String), (resumeRecording c botID).isOk = true)
    ∧ (∀ (c : Client) (botID : String) (request : Option Json), (sendChatMessage c botID request).isOk = true)
    ∧ (∀ (c : Client) (botID : String) (p : Option Bool), (getSpeakerTimeline c botID p).isOk = true)
    ∧ (∀ (c : Client) (botID : String) (request : Option Json), (startRecording c botID request).isOk = true)
    ∧ (∀ (c : Client) (botID : String), (stopRecording c botID).isOk = true)
    ∧ (∀ (c : Client) (botID : String) (p : Option Bool), (getBotTranscript c botID p).isOk = true)
    ∧ (∀ (c : Client) (botId : String) (request : Option Json), (analyzeBotMedia c botId request).isOk = true)
    ∧ (∀ (c : Client) (botID : String), (deleteScheduledBot c botID).isOk = true)
    ∧ (∀ (c : Client) (botID : String), (deleteBotMedia c botID).isOk = true)
    ∧ (∀ (c : Client) (botID : String), (stopOutputAudio c botID).isOk = true)
    ∧ (∀ (c : Client) (botID : String), (stopOutputMedia c botID).isOk = true)
    ∧ (∀ (c : Client) (botID : String), (stopScreenshare c botID).isOk = true)
    ∧ (∀ (c : Client) (botID : String), (stopOutputVideo c botID).isOk = true)
    ∧ (∀ (t : Transport) (tok : String) (opts : List ClientOption),
      (newClient t tok opts).isOk = true) := by
  refine ⟨?_, ?_, ?_, ?_, ?_, ?_, ?_, ?_, ?_, ?_, ?_, ?_, ?_, ?_, ?_, ?_, ?_, ?_, ?_, ?_, ?_, ?_, ?_, ?_, ?_, ?_⟩
  · intro c req
    have hstep : createBot c (some req) =
        (match req.validate with
          | some err => PanicOr.ok (none, some (.wrapped "invalid request" err), [])
          | none => runJSONOp c "failed to create bot" "POST" "bot" []
              (some req.toJson) apiVersionV1 false) := rfl
    rw [hstep]
    cases hv : req.validate with
    | some err => rfl
    | none =>
        exact runJSONOp_isOk c "failed to create bot" "POST" "bot" []
          (some req.toJson) apiVersionV1 false
  · intro c params
    unfold listBots
    exact runJSONOp_isOk _ _ _ _ _ _ _ _
  · intro c botID params
    unfold listChatMessages
    exact runJSONOp_isOk _ _ _ _ _ _ _ _
  · intro c botID
    unfold retrieveBot
    exact runJSONOp_isOk _ _ _ _ _ _ _ _
  · intro c botID request
    unfold updateScheduledBot
    exact runJSONOp_isOk _ _ _ _ _ _ _ _
  · intro c botID
    unfold getBotLogs
    exact runJSONOp_isOk _ _ _ _ _ _ _ _
  · intro c botID request
    unfold outputAudio
    exact runJSONOp_isOk _ _ _ _ _ _ _ _
  · intro c botID request
    unfold outputMedia
    exact runJSONOp_isOk _ _ _ _ _ _ _ _
  · intro c botID request
    unfold startScreenshare
    exact runJSONOp_isOk _ _ _ _ _ _ _ _
  · intro c botID request
    unfold outputVideo
    exact runJSONOp_isOk _ _ _ _ _ _ _ _
  · intro c botID
    unfold pauseRecording
    exact runJSONOp_isOk _ _ _ _ _ _ _ _
  · intro c botID
    unfold requestRecordingPermission
    exact runJSONOp_isOk _ _ _ _ _ _ _ _
  · intro c botID
    unfold resumeRecording
    exact runJSONOp_isOk _ _ _ _ _ _ _ _
  · intro c botID request
    unfold sendChatMessage
    exact runJSONOp_isOk _ _ _ _ _ _ _ _
  · intro c botID p
    unfold getSpeakerTimeline
    exact runJSONOp_isOk _ _ _ _ _ _ _ _
  · intro c botID request
    unfold startRecording
    exact runJSONOp_isOk _ _ _ _ _ _ _ _
  · intro c botID
    unfold stopRecording
    exact runJSONOp_isOk _ _ _ _ _ _ _ _
  · intro c botID p
    unfold getBotTranscript
    exact runJSONOp_isOk _ _ _ _ _ _ _ _
  · intro c botId request
    unfold analyzeBotMedia
    exact runJSONOp_isOk _ _ _ _ _ _ _ _
  · intro c botID
    unfold deleteScheduledBot
    exact runStatusOp_isOk _ _ _ _ _ _
  · intro c botID
    unfold deleteBotMedia
    exact runStatusOp_isOk _ _ _ _ _ _
  · intro c botID
    unfold stopOutputAudio
    exact runStatusOp_isOk _ _ _ _ _ _
  · intro c botID
    unfold stopOutputMedia
    exact runStatusOp_isOk _ _ _ _ _ _
  · intro c botID
    unfold stopScreenshare
    exact runStatusOp_isOk _ _ _ _ _ _
  · intro c botID
    unfold stopOutputVideo
    exact runStatusOp_isOk _ _ _ _ _ _
  · intro t tok opts
    unfold newClient
    rw [setBaseURL_ok Region.usEast]
    exact applyOptions_isOk opts _
